import Mathlib

/-!
Shallow embedding of the testable core of the `oct6th-cairo` repository:
the pydantic request models, the `_post` HTTP adapter, the eight capability
functions of `src/reccomendation.py`, the `StructuredTool` invocation layer,
and the tool-policy gate `guard_tools` (imported in `src/agent.py` from the
`.policy` module, whose source is not in the repository snapshot; it is
modelled from the specification).

Python floats are modelled as rationals extended with `nan`, `inf`, `neginf`
(pydantic performs no float arithmetic on them, only comparisons, so IEEE
rounding is irrelevant here).  Network transport is a parameter
`PostRequest → HttpResponse`; every adapter call returns, next to its result,
the list of requests actually issued, so "the adapter was never invoked" and
"no retry" are statements about that trace.
-/

/-- A Python float value: a finite rational, or one of the three
non-finite values.  Pydantic range checks only compare these. -/
inductive PyFloat where
  | finite (q : ℚ)
  | nan
  | inf
  | neginf
deriving DecidableEq, Repr

/-- Python `x <= y` on floats: `nan` compares false with everything,
`inf` is above every finite value, `neginf` below. -/
def PyFloat.le : PyFloat → PyFloat → Bool
  | .nan, _ => false
  | _, .nan => false
  | .neginf, _ => true
  | _, .neginf => false
  | _, .inf => true
  | .inf, .finite _ => false
  | .finite a, .finite b => decide (a ≤ b)

/-- A Python float is finite when it is neither `nan` nor an infinity. -/
def PyFloat.isFinite : PyFloat → Bool
  | .finite _ => true
  | _ => false

/-- JSON values, as serialized into the POST body. -/
inductive JsonVal where
  | jnull
  | jbool (b : Bool)
  | jint (n : ℤ)
  | jnum (x : PyFloat)
  | jstr (s : String)
  | jobj (fields : List (String × JsonVal))
deriving Repr

/-- The `settings` object of the repository's config module: `rec_engine_url`
(required) and `rec_api_key` (optional).  `_post` tests the key with
Python truthiness, so `some ""` behaves like `none`. -/
structure Settings where
  rec_engine_url : String
  rec_api_key : Option String

/-- Python truthiness of an optional string: present and non-empty. -/
def optStrTruthy : Option String → Bool
  | none => false
  | some s => !(s.data.isEmpty)

/-- Lowercase a single ASCII character (`str.lower` restricted to ASCII,
which covers every name the policy gate sees). -/
def lowerChar (c : Char) : Char :=
  if 'A' ≤ c ∧ c ≤ 'Z' then Char.ofNat (c.toNat + 32) else c

/-- Python `s.rstrip("/")`: remove every trailing `'/'`. -/
def rstripSlashes (s : String) : String :=
  ⟨(s.data.reverse.dropWhile (fun c => c == '/')).reverse⟩

/-- The outbound HTTP request `_post` hands to `httpx.Client.post`:
target URL, JSON payload (an ordered dict), and headers. -/
structure PostRequest where
  url : String
  payload : List (String × JsonVal)
  headers : List (String × String)

/-- What the transport returns: the HTTP status code, the raw body text,
and the result of JSON-decoding the body (`none` when the body is not
valid JSON), standing for `r.json()`. -/
structure HttpResponse where
  status : Nat
  body : String
  jsonBody : Option JsonVal

/-- The errors `_post` can raise: `httpx.HTTPStatusError` from
`raise_for_status` (carrying status and body) and a JSON decode error
from `r.json()`. -/
inductive PostError where
  | httpError (status : Nat) (body : String)
  | decodeError
deriving Repr

/-- Builds the request exactly as `_post` does:
`base = settings.rec_engine_url.rstrip("/")`, URL `f"{base}{path}"`,
and the `Authorization: Bearer <key>` header iff the key is truthy. -/
def mkRequest (st : Settings) (path : String)
    (payload : List (String × JsonVal)) : PostRequest :=
  { url := rstripSlashes st.rec_engine_url ++ path
    payload := payload
    headers :=
      if optStrTruthy st.rec_api_key then
        [("Authorization", "Bearer " ++ st.rec_api_key.getD "")]
      else [] }

/-- The adapter `_post(path, payload)`: issue one POST, `raise_for_status` (httpx
raises exactly when the status is not 2xx), then `r.json()`.  The first
component is the list of requests issued through the transport — always
exactly one; there is no retry loop in the source. -/
def post (st : Settings) (transport : PostRequest → HttpResponse)
    (path : String) (payload : List (String × JsonVal)) :
    List PostRequest × Except PostError JsonVal :=
  let req := mkRequest st path payload
  let r := transport req
  ([req],
    if 200 ≤ r.status ∧ r.status < 300 then
      match r.jsonBody with
      | some j => .ok j
      | none => .error .decodeError
    else .error (.httpError r.status r.body))

/-- Capability `set_recommendation_weights(weights)`. -/
def set_recommendation_weights (st : Settings)
    (transport : PostRequest → HttpResponse)
    (weights : List (String × PyFloat)) :
    List PostRequest × Except PostError JsonVal :=
  post st transport "/api/control/set_weights"
    [("weights", .jobj (weights.map (fun kv => (kv.1, .jnum kv.2))))]

/-- Capability `boost_creator(creator_id, factor)`. -/
def boost_creator (st : Settings) (transport : PostRequest → HttpResponse)
    (creator_id : String) (factor : PyFloat) :
    List PostRequest × Except PostError JsonVal :=
  post st transport "/api/control/boost_creator"
    [("creator_id", .jstr creator_id), ("factor", .jnum factor)]

/-- Capability `demote_creator(creator_id, factor)`. -/
def demote_creator (st : Settings) (transport : PostRequest → HttpResponse)
    (creator_id : String) (factor : PyFloat) :
    List PostRequest × Except PostError JsonVal :=
  post st transport "/api/control/demote_creator"
    [("creator_id", .jstr creator_id), ("factor", .jnum factor)]

/-- Capability `block_tag(tag)`. -/
def block_tag (st : Settings) (transport : PostRequest → HttpResponse)
    (tag : String) : List PostRequest × Except PostError JsonVal :=
  post st transport "/api/control/block_tag" [("tag", .jstr tag)]

/-- Capability `unblock_tag(tag)`. -/
def unblock_tag (st : Settings) (transport : PostRequest → HttpResponse)
    (tag : String) : List PostRequest × Except PostError JsonVal :=
  post st transport "/api/control/unblock_tag" [("tag", .jstr tag)]

/-- Capability `search_content(query, limit=10)`. -/
def search_content (st : Settings) (transport : PostRequest → HttpResponse)
    (query : String) (limit : ℤ) :
    List PostRequest × Except PostError JsonVal :=
  post st transport "/api/search/content"
    [("query", .jstr query), ("limit", .jint limit)]

/-- Capability `trending_content(category="all", limit=10)`. -/
def trending_content (st : Settings) (transport : PostRequest → HttpResponse)
    (category : String) (limit : ℤ) :
    List PostRequest × Except PostError JsonVal :=
  post st transport "/api/content/trending"
    [("category", .jstr category), ("limit", .jint limit)]

/-- Capability `personalized_feed(user_id, limit=10)`. -/
def personalized_feed (st : Settings) (transport : PostRequest → HttpResponse)
    (user_id : String) (limit : ℤ) :
    List PostRequest × Except PostError JsonVal :=
  post st transport "/api/content/personalized_feed"
    [("user_id", .jstr user_id), ("limit", .jint limit)]

/-!
## Request-model validation (the pydantic layer)

The `StructuredTool` wrappers bind each capability function to a pydantic
`args_schema`; when a tool is invoked, the arguments are first validated
against that schema and the wrapped function runs only on success.  The
validators below embed pydantic v2's default (lax) coercion for the field
types the schemas use: `str` accepts only strings, `float` accepts floats,
ints and numeric strings (including `nan`/`inf`, since `allow_inf_nan`
defaults to true), `int` accepts ints, integral floats and integer
strings; `bool`/`None`/containers are rejected for numeric fields.
-/

/-- A raw (pre-validation) Python argument value. -/
inductive RawVal where
  | rnone
  | rbool (b : Bool)
  | rint (n : ℤ)
  | rfloat (f : PyFloat)
  | rstr (s : String)
  | rdict (entries : List (String × RawVal))
deriving Repr

/-- Negation of a Python float. -/
def PyFloat.neg : PyFloat → PyFloat
  | .finite q => .finite (-q)
  | .nan => .nan
  | .inf => .neginf
  | .neginf => .inf

/-- Decimal digit value of a character, if it is a digit. -/
def digitVal (c : Char) : Option Nat :=
  if '0' ≤ c ∧ c ≤ '9' then some (c.toNat - 48) else none

/-- Parse a run of decimal digits (accumulator form); fails on any
non-digit. -/
def parseNatAux : List Char → Nat → Option Nat
  | [], acc => some acc
  | c :: cs, acc =>
    match digitVal c with
    | some d => parseNatAux cs (acc * 10 + d)
    | none => none

/-- Parse a non-empty run of decimal digits. -/
def parseDigits : List Char → Option Nat
  | [] => none
  | c :: cs => parseNatAux (c :: cs) 0

/-- Split a character list at the first `'.'`, if any. -/
def splitDot : List Char → List Char × Option (List Char)
  | [] => ([], none)
  | c :: cs =>
    if c == '.' then ([], some cs)
    else
      let r := splitDot cs
      (c :: r.1, r.2)

/-- Parse an unsigned Python float literal: `nan`, `inf`/`infinity`
(case-insensitive), or decimal digits with an optional fractional part
(exponents and underscores, which Python also accepts, are omitted; no
claim depends on them). -/
def parseUnsignedFloat (cs : List Char) : Option PyFloat :=
  let low := cs.map lowerChar
  if low = "nan".data then some .nan
  else if low = "inf".data ∨ low = "infinity".data then some .inf
  else
    match splitDot cs with
    | (intPart, none) => (parseDigits intPart).map (fun n => .finite (n : ℚ))
    | ([], some []) => none
    | (intPart, some fracPart) =>
      let ip : Option Nat := if intPart = [] then some 0 else parseDigits intPart
      let fp : Option Nat := if fracPart = [] then some 0 else parseDigits fracPart
      match ip, fp with
      | some i, some f =>
        some (.finite ((i : ℚ) + (f : ℚ) / ((10 : ℚ) ^ fracPart.length)))
      | _, _ => none

/-- Python `float(s)`: strip surrounding spaces, optional sign, then an
unsigned float literal. -/
def parsePyFloatStr (s : String) : Option PyFloat :=
  let cs := s.data.dropWhile (fun c => c == ' ')
  let cs := (cs.reverse.dropWhile (fun c => c == ' ')).reverse
  match cs with
  | '+' :: rest => parseUnsignedFloat rest
  | '-' :: rest => (parseUnsignedFloat rest).map PyFloat.neg
  | rest => parseUnsignedFloat rest

/-- Python `int(s)`: optional sign and decimal digits. -/
def parsePyIntStr (s : String) : Option ℤ :=
  let cs := s.data.dropWhile (fun c => c == ' ')
  let cs := (cs.reverse.dropWhile (fun c => c == ' ')).reverse
  match cs with
  | '+' :: rest => (parseDigits rest).map (fun n => (n : ℤ))
  | '-' :: rest => (parseDigits rest).map (fun n => -(n : ℤ))
  | rest => (parseDigits rest).map (fun n => (n : ℤ))

/-- Pydantic lax coercion into a `float` field. -/
def coerceFloat : RawVal → Option PyFloat
  | .rfloat f => some f
  | .rint n => some (.finite (n : ℚ))
  | .rstr s => parsePyFloatStr s
  | _ => none

/-- Pydantic lax coercion into an `int` field. -/
def coerceInt : RawVal → Option ℤ
  | .rint n => some n
  | .rfloat (.finite q) => if q.den = 1 then some q.num else none
  | .rstr s => parsePyIntStr s
  | _ => none

/-- Pydantic lax coercion into a `str` field: only strings are accepted
(pydantic v2 does not stringify numbers). -/
def coerceStr : RawVal → Option String
  | .rstr s => some s
  | _ => none

/-- Coerce every value of a raw dict into a float, keeping keys and
order (`Dict[str, float]`). -/
def coerceWeights : List (String × RawVal) → Option (List (String × PyFloat))
  | [] => some []
  | (k, v) :: rest =>
    match coerceFloat v, coerceWeights rest with
    | some f, some ws => some ((k, f) :: ws)
    | _, _ => none

/-- An omitted field with a default, for an `int` field. -/
def withDefaultInt (raw : Option RawVal) (d : ℤ) : Option ℤ :=
  match raw with
  | none => some d
  | some v => coerceInt v

/-- An omitted field with a default, for a `str` field. -/
def withDefaultStr (raw : Option RawVal) (d : String) : Option String :=
  match raw with
  | none => some d
  | some v => coerceStr v

/-- Model `SetWeightsInput`: `weights: Dict[str, float]`, no other constraint. -/
structure SetWeightsInput where
  weights : List (String × PyFloat)
deriving DecidableEq, Repr

/-- Model `BoostCreatorInput`: `creator_id: str`, `factor: float` with
`ge=0.0, le=10.0`. -/
structure BoostCreatorInput where
  creator_id : String
  factor : PyFloat
deriving DecidableEq, Repr

/-- Model `DemoteCreatorInput`: same shape as `BoostCreatorInput`. -/
structure DemoteCreatorInput where
  creator_id : String
  factor : PyFloat
deriving DecidableEq, Repr

/-- Model `BlockTagInput`: `tag: str`. -/
structure BlockTagInput where
  tag : String
deriving DecidableEq, Repr

/-- Model `UnblockTagInput`: `tag: str`. -/
structure UnblockTagInput where
  tag : String
deriving DecidableEq, Repr

/-- Model `SearchContentInput`: `query: str`, `limit: int = 10`. -/
structure SearchContentInput where
  query : String
  limit : ℤ
deriving DecidableEq, Repr

/-- Model `TrendingContentInput`: `category: str = "all"`, `limit: int = 10`. -/
structure TrendingContentInput where
  category : String
  limit : ℤ
deriving DecidableEq, Repr

/-- Model `PersonalizedFeedInput`: `user_id: str`, `limit: int = 10`. -/
structure PersonalizedFeedInput where
  user_id : String
  limit : ℤ
deriving DecidableEq, Repr

/-- The `ge=0.0, le=10.0` field constraint, checked the way pydantic
checks it: `0.0 <= factor` and `factor <= 10.0` with Python float
comparison (so `nan` fails). -/
def factorInRange (f : PyFloat) : Bool :=
  PyFloat.le (.finite 0) f && PyFloat.le f (.finite 10)

/-- Validate `SetWeightsInput` from raw kwargs. -/
def validateSetWeights (weights : Option RawVal) : Option SetWeightsInput :=
  match weights with
  | some (.rdict entries) => (coerceWeights entries).map SetWeightsInput.mk
  | _ => none

/-- Validate `BoostCreatorInput` from raw kwargs. -/
def validateBoostCreator (creator_id factor : Option RawVal) :
    Option BoostCreatorInput :=
  match creator_id.bind coerceStr, factor.bind coerceFloat with
  | some c, some f => if factorInRange f then some ⟨c, f⟩ else none
  | _, _ => none

/-- Validate `DemoteCreatorInput` from raw kwargs. -/
def validateDemoteCreator (creator_id factor : Option RawVal) :
    Option DemoteCreatorInput :=
  match creator_id.bind coerceStr, factor.bind coerceFloat with
  | some c, some f => if factorInRange f then some ⟨c, f⟩ else none
  | _, _ => none

/-- Validate `BlockTagInput` from raw kwargs. -/
def validateBlockTag (tag : Option RawVal) : Option BlockTagInput :=
  (tag.bind coerceStr).map BlockTagInput.mk

/-- Validate `UnblockTagInput` from raw kwargs. -/
def validateUnblockTag (tag : Option RawVal) : Option UnblockTagInput :=
  (tag.bind coerceStr).map UnblockTagInput.mk

/-- Validate `SearchContentInput` from raw kwargs (`limit` defaults
to 10). -/
def validateSearchContent (query limit : Option RawVal) :
    Option SearchContentInput :=
  match query.bind coerceStr, withDefaultInt limit 10 with
  | some q, some l => some ⟨q, l⟩
  | _, _ => none

/-- Validate `TrendingContentInput` from raw kwargs (`category` defaults
to `"all"`, `limit` to 10). -/
def validateTrendingContent (category limit : Option RawVal) :
    Option TrendingContentInput :=
  match withDefaultStr category "all", withDefaultInt limit 10 with
  | some c, some l => some ⟨c, l⟩
  | _, _ => none

/-- Validate `PersonalizedFeedInput` from raw kwargs (`limit` defaults
to 10). -/
def validatePersonalizedFeed (user_id limit : Option RawVal) :
    Option PersonalizedFeedInput :=
  match user_id.bind coerceStr, withDefaultInt limit 10 with
  | some u, some l => some ⟨u, l⟩
  | _, _ => none

/-!
## StructuredTool invocation

`StructuredTool(name=…, func=…, args_schema=…)` validates raw keyword
arguments against `args_schema` and calls `func` only on success; a
validation failure raises `ValidationError` before `func` (and hence
`_post`) runs.  Each runner returns the list of requests the adapter
issued (empty on validation failure) and the outcome.
-/

/-- Errors surfaced by a tool invocation: pydantic `ValidationError`, or
an error propagated from `_post`. -/
inductive ToolError where
  | validationError
  | postError (e : PostError)
deriving Repr

/-- Invoke `set_weights_tool`. -/
def run_set_weights_tool (st : Settings)
    (transport : PostRequest → HttpResponse) (weights : Option RawVal) :
    List PostRequest × Except ToolError JsonVal :=
  match validateSetWeights weights with
  | none => ([], .error .validationError)
  | some m =>
    let r := set_recommendation_weights st transport m.weights
    (r.1, r.2.mapError ToolError.postError)

/-- Invoke `boost_creator_tool`. -/
def run_boost_creator_tool (st : Settings)
    (transport : PostRequest → HttpResponse)
    (creator_id factor : Option RawVal) :
    List PostRequest × Except ToolError JsonVal :=
  match validateBoostCreator creator_id factor with
  | none => ([], .error .validationError)
  | some m =>
    let r := boost_creator st transport m.creator_id m.factor
    (r.1, r.2.mapError ToolError.postError)

/-- Invoke `demote_creator_tool`. -/
def run_demote_creator_tool (st : Settings)
    (transport : PostRequest → HttpResponse)
    (creator_id factor : Option RawVal) :
    List PostRequest × Except ToolError JsonVal :=
  match validateDemoteCreator creator_id factor with
  | none => ([], .error .validationError)
  | some m =>
    let r := demote_creator st transport m.creator_id m.factor
    (r.1, r.2.mapError ToolError.postError)

/-- Invoke `block_tag_tool`. -/
def run_block_tag_tool (st : Settings)
    (transport : PostRequest → HttpResponse) (tag : Option RawVal) :
    List PostRequest × Except ToolError JsonVal :=
  match validateBlockTag tag with
  | none => ([], .error .validationError)
  | some m =>
    let r := block_tag st transport m.tag
    (r.1, r.2.mapError ToolError.postError)

/-- Invoke `unblock_tag_tool`. -/
def run_unblock_tag_tool (st : Settings)
    (transport : PostRequest → HttpResponse) (tag : Option RawVal) :
    List PostRequest × Except ToolError JsonVal :=
  match validateUnblockTag tag with
  | none => ([], .error .validationError)
  | some m =>
    let r := unblock_tag st transport m.tag
    (r.1, r.2.mapError ToolError.postError)

/-- Invoke `search_content_tool`. -/
def run_search_content_tool (st : Settings)
    (transport : PostRequest → HttpResponse) (query limit : Option RawVal) :
    List PostRequest × Except ToolError JsonVal :=
  match validateSearchContent query limit with
  | none => ([], .error .validationError)
  | some m =>
    let r := search_content st transport m.query m.limit
    (r.1, r.2.mapError ToolError.postError)

/-- Invoke `trending_content_tool`. -/
def run_trending_content_tool (st : Settings)
    (transport : PostRequest → HttpResponse)
    (category limit : Option RawVal) :
    List PostRequest × Except ToolError JsonVal :=
  match validateTrendingContent category limit with
  | none => ([], .error .validationError)
  | some m =>
    let r := trending_content st transport m.category m.limit
    (r.1, r.2.mapError ToolError.postError)

/-- Invoke `personalized_feed_tool`. -/
def run_personalized_feed_tool (st : Settings)
    (transport : PostRequest → HttpResponse)
    (user_id limit : Option RawVal) :
    List PostRequest × Except ToolError JsonVal :=
  match validatePersonalizedFeed user_id limit with
  | none => ([], .error .validationError)
  | some m =>
    let r := personalized_feed st transport m.user_id m.limit
    (r.1, r.2.mapError ToolError.postError)

/-!
## Policy gate

`src/agent.py` calls `guard_tools(tools)` from the `.policy` module, whose
source file is not in the repository snapshot; the gate is therefore
modelled from the specification (§4.4).
-/

/-- A tool descriptor as the policy gate sees it: a name and a
description. -/
structure ToolDescriptor where
  name : String
  description : String
deriving DecidableEq, Repr

/-- Whether `pat` begins the list `s`. -/
def beginsWith : List Char → List Char → Bool
  | [], _ => true
  | _ :: _, [] => false
  | p :: ps, c :: cs => p == c && beginsWith ps cs

/-- Whether `pat` occurs as a contiguous substring of `s`. -/
def containsSub (pat : List Char) : List Char → Bool
  | [] => pat.isEmpty
  | c :: cs => beginsWith pat (c :: cs) || containsSub pat cs

/-- Lowercased character list of a string. -/
def lowerStr (s : String) : List Char := s.data.map lowerChar

/-- Modelled from the spec: the DisallowedActionSet, the fixed set of
capability-name substrings `{"like", "comment", "auto_like",
"auto_comment", ...}` used by the Policy Gate (the `.policy` module is
missing from the snapshot). -/
def disallowed_actions : List String :=
  ["like", "comment", "auto_like", "auto_comment"]

/-- Modelled from the spec: a descriptor matches when its name contains
one of the disallowed substrings, case-insensitively. -/
def matchesDisallowed (t : ToolDescriptor) : Bool :=
  disallowed_actions.any (fun pat => containsSub (lowerStr pat) (lowerStr t.name))

/-- Modelled from the spec: `guard_tools` (the Policy Gate of the missing
`.policy` module) drops every descriptor whose name matches the
DisallowedActionSet, keeping the rest in order without mutating them. -/
def guard_tools (tools : List ToolDescriptor) : List ToolDescriptor :=
  tools.filter (fun t => !matchesDisallowed t)

/-- A descriptor with the given name (description irrelevant to the
gate), as in the spec's `tool("like_post")` notation. -/
def tool (name : String) : ToolDescriptor := ⟨name, ""⟩

/-!
## Theorems
-/

/-- C2: `guard` applied to `[tool("like_post"), tool("boost_creator"),
tool("auto_comment")]` returns exactly `[tool("boost_creator")]`; in
general, every descriptor whose name matches the disallowed-action set
(case-insensitive substring match) is dropped, every non-matching
descriptor is kept, and the relative order of kept descriptors is
preserved (the output is a sublist of the input). -/
theorem guard_tools_policy :
    guard_tools [tool "like_post", tool "boost_creator", tool "auto_comment"]
        = [tool "boost_creator"]
    ∧ ∀ ts : List ToolDescriptor,
        List.Sublist (guard_tools ts) ts
        ∧ (∀ t ∈ ts, matchesDisallowed t = true → t ∉ guard_tools ts)
        ∧ (∀ t ∈ ts, matchesDisallowed t = false → t ∈ guard_tools ts) := by
  refine ⟨by decide, fun ts => ⟨List.filter_sublist ts, ?_, ?_⟩⟩
  · intro t _ hm hmem
    rcases (List.mem_filter.mp hmem) with ⟨_, hkeep⟩
    simp [hm] at hkeep
  · intro t ht hm
    exact List.mem_filter.mpr ⟨ht, by simp [hm]⟩

/-- C2 witness: the general clauses instantiated at a concrete list —
`tool "like_post"` matches and is dropped, `tool "boost_creator"` does
not match and is kept. -/
theorem guard_tools_policy_witness :
    (tool "like_post" ∈ [tool "like_post", tool "boost_creator"]
      ∧ matchesDisallowed (tool "like_post") = true
      ∧ tool "like_post" ∉ guard_tools [tool "like_post", tool "boost_creator"])
    ∧ (tool "boost_creator" ∈ [tool "like_post", tool "boost_creator"]
      ∧ matchesDisallowed (tool "boost_creator") = false
      ∧ tool "boost_creator" ∈ guard_tools [tool "like_post", tool "boost_creator"]) :=
  ⟨⟨by decide, by decide,
    (guard_tools_policy.2 [tool "like_post", tool "boost_creator"]).2.1
      (tool "like_post") (by decide) (by decide)⟩,
   ⟨by decide, by decide,
    (guard_tools_policy.2 [tool "like_post", tool "boost_creator"]).2.2
      (tool "boost_creator") (by decide) (by decide)⟩⟩

/-- C3: every capability function POSTs a payload whose key set is
exactly the declared one for that capability, to that capability's fixed
path (URL = stripped base ++ path); in particular `block_tag("sports")`
sends `{"tag": "sports"}` to `/api/control/block_tag`. -/
theorem payload_key_sets (st : Settings) (tr : PostRequest → HttpResponse) :
    (∀ w, (set_recommendation_weights st tr w).1.map
        (fun r => (r.payload.map Prod.fst, r.url))
      = [(["weights"],
          rstripSlashes st.rec_engine_url ++ "/api/control/set_weights")])
    ∧ (∀ c f, (boost_creator st tr c f).1.map
        (fun r => (r.payload.map Prod.fst, r.url))
      = [(["creator_id", "factor"],
          rstripSlashes st.rec_engine_url ++ "/api/control/boost_creator")])
    ∧ (∀ c f, (demote_creator st tr c f).1.map
        (fun r => (r.payload.map Prod.fst, r.url))
      = [(["creator_id", "factor"],
          rstripSlashes st.rec_engine_url ++ "/api/control/demote_creator")])
    ∧ (∀ t, (block_tag st tr t).1.map
        (fun r => (r.payload.map Prod.fst, r.url))
      = [(["tag"], rstripSlashes st.rec_engine_url ++ "/api/control/block_tag")])
    ∧ (∀ t, (unblock_tag st tr t).1.map
        (fun r => (r.payload.map Prod.fst, r.url))
      = [(["tag"], rstripSlashes st.rec_engine_url ++ "/api/control/unblock_tag")])
    ∧ (∀ q l, (search_content st tr q l).1.map
        (fun r => (r.payload.map Prod.fst, r.url))
      = [(["query", "limit"],
          rstripSlashes st.rec_engine_url ++ "/api/search/content")])
    ∧ (∀ c l, (trending_content st tr c l).1.map
        (fun r => (r.payload.map Prod.fst, r.url))
      = [(["category", "limit"],
          rstripSlashes st.rec_engine_url ++ "/api/content/trending")])
    ∧ (∀ u l, (personalized_feed st tr u l).1.map
        (fun r => (r.payload.map Prod.fst, r.url))
      = [(["user_id", "limit"],
          rstripSlashes st.rec_engine_url ++ "/api/content/personalized_feed")])
    ∧ (block_tag st tr "sports").1.map (fun r => (r.payload, r.url))
      = [([("tag", .jstr "sports")],
          rstripSlashes st.rec_engine_url ++ "/api/control/block_tag")] :=
  ⟨fun _ => rfl, fun _ _ => rfl, fun _ _ => rfl, fun _ => rfl, fun _ => rfl,
   fun _ _ => rfl, fun _ _ => rfl, fun _ _ => rfl, rfl⟩

/-- The stripped base is an actual truncation of the configured base:
the base equals it followed by a (possibly empty) run of slashes. -/
theorem rstripSlashes_split (s : String) :
    ∃ t : String, s = rstripSlashes s ++ t ∧ ∀ c ∈ t.data, c = '/' := by
  refine ⟨⟨(s.data.reverse.takeWhile (fun c => c == '/')).reverse⟩, ?_, ?_⟩
  · apply String.ext
    rw [String.data_append]
    show s.data = (s.data.reverse.dropWhile (fun c => c == '/')).reverse
        ++ (s.data.reverse.takeWhile (fun c => c == '/')).reverse
    rw [← List.reverse_append, List.takeWhile_append_dropWhile,
      List.reverse_reverse]
  · intro c hc
    have hc' : c ∈ s.data.reverse.takeWhile (fun c => c == '/') :=
      List.mem_reverse.mp hc
    simpa using List.mem_takeWhile_imp hc'

/-- The stripped base never ends in a slash. -/
theorem rstripSlashes_getLast (s : String) :
    ∀ c, (rstripSlashes s).data.getLast? = some c → c ≠ '/' := by
  intro c hc
  have hh : (s.data.reverse.dropWhile (fun x => x == '/')).head? = some c := by
    rw [← List.getLast?_reverse]
    exact hc
  have h := List.head?_dropWhile_not (fun x => x == '/') s.data.reverse
  rw [hh] at h
  simpa using h

/-- C4: every adapter call issues exactly the request whose URL is the
configured base URL with trailing slashes stripped concatenated with the
fixed path (the stripped base is a slash-run truncation of the base and
does not itself end in `'/'`), and carries the
`Authorization: Bearer <api_key>` header iff an API key is configured
(present and non-empty); otherwise the header map is empty. -/
theorem adapter_url_and_auth (st : Settings)
    (tr : PostRequest → HttpResponse) (path : String)
    (payload : List (String × JsonVal)) :
    (post st tr path payload).1 = [mkRequest st path payload]
    ∧ (mkRequest st path payload).url = rstripSlashes st.rec_engine_url ++ path
    ∧ (∃ t : String, st.rec_engine_url = rstripSlashes st.rec_engine_url ++ t
        ∧ ∀ c ∈ t.data, c = '/')
    ∧ (∀ c, (rstripSlashes st.rec_engine_url).data.getLast? = some c → c ≠ '/')
    ∧ ((∃ v, ("Authorization", v) ∈ (mkRequest st path payload).headers)
        ↔ ∃ k, st.rec_api_key = some k ∧ k ≠ "")
    ∧ (∀ k, st.rec_api_key = some k → k ≠ "" →
        (mkRequest st path payload).headers = [("Authorization", "Bearer " ++ k)])
    ∧ (optStrTruthy st.rec_api_key = false →
        (mkRequest st path payload).headers = []) := by
  refine ⟨rfl, rfl, rstripSlashes_split _, rstripSlashes_getLast _, ?_, ?_, ?_⟩
  · cases hk : st.rec_api_key with
    | none => simp [mkRequest, optStrTruthy, hk]
    | some k =>
      rcases eq_or_ne k "" with he | he
      · subst he
        simp [mkRequest, optStrTruthy, hk]
      · have hne : k.data.isEmpty = false := by
          cases k with
          | mk l =>
            cases l with
            | nil => simp at he
            | cons a as => rfl
        simp [mkRequest, optStrTruthy, hk, hne, he]
  · intro k hk hne
    have hne' : k.data.isEmpty = false := by
      cases k with
      | mk l =>
        cases l with
        | nil => simp at hne
        | cons a as => rfl
    simp [mkRequest, optStrTruthy, hk, hne']
  · intro ht
    simp [mkRequest, ht]

/-- C4 witness: with base `https://rec.example/` and key `KEY`, the
request for `/api/control/block_tag` carries exactly the bearer header,
and the URL drops the trailing slash. -/
theorem adapter_url_and_auth_witness :
    (mkRequest ⟨"https://rec.example/", some "KEY"⟩ "/api/control/block_tag" []).headers
      = [("Authorization", "Bearer KEY")]
    ∧ (mkRequest ⟨"https://rec.example/", some "KEY"⟩ "/api/control/block_tag" []).url
      = "https://rec.example" ++ "/api/control/block_tag" :=
  ⟨(adapter_url_and_auth ⟨"https://rec.example/", some "KEY"⟩
      (fun _ => ⟨200, "", some .jnull⟩) "/api/control/block_tag" []).2.2.2.2.2.1
      "KEY" rfl (by decide),
   by
    have h := (adapter_url_and_auth ⟨"https://rec.example/", some "KEY"⟩
      (fun _ => ⟨200, "", some .jnull⟩) "/api/control/block_tag" []).2.1
    rw [h]
    decide⟩

/-- C5: every capability function is exactly one adapter call (the
request trace has length 1 — no retry); when the transport answers with
a non-2xx status the call fails with `HTTPError` carrying that status
and the response body, and when it answers 2xx with a JSON body, that
body is returned unchanged.  The eight trailing equations show every
capability function is such an adapter call at its fixed path. -/
theorem http_status_handling (st : Settings)
    (tr : PostRequest → HttpResponse) (path : String)
    (payload : List (String × JsonVal)) :
    (post st tr path payload).1.length = 1
    ∧ (¬(200 ≤ (tr (mkRequest st path payload)).status
          ∧ (tr (mkRequest st path payload)).status < 300) →
        (post st tr path payload).2
          = .error (.httpError (tr (mkRequest st path payload)).status
              (tr (mkRequest st path payload)).body))
    ∧ (∀ j, (200 ≤ (tr (mkRequest st path payload)).status
          ∧ (tr (mkRequest st path payload)).status < 300) →
        (tr (mkRequest st path payload)).jsonBody = some j →
        (post st tr path payload).2 = .ok j)
    ∧ (∀ w, set_recommendation_weights st tr w
        = post st tr "/api/control/set_weights"
            [("weights", .jobj (w.map (fun kv => (kv.1, .jnum kv.2))))])
    ∧ (∀ c f, boost_creator st tr c f
        = post st tr "/api/control/boost_creator"
            [("creator_id", .jstr c), ("factor", .jnum f)])
    ∧ (∀ c f, demote_creator st tr c f
        = post st tr "/api/control/demote_creator"
            [("creator_id", .jstr c), ("factor", .jnum f)])
    ∧ (∀ t, block_tag st tr t
        = post st tr "/api/control/block_tag" [("tag", .jstr t)])
    ∧ (∀ t, unblock_tag st tr t
        = post st tr "/api/control/unblock_tag" [("tag", .jstr t)])
    ∧ (∀ q l, search_content st tr q l
        = post st tr "/api/search/content"
            [("query", .jstr q), ("limit", .jint l)])
    ∧ (∀ c l, trending_content st tr c l
        = post st tr "/api/content/trending"
            [("category", .jstr c), ("limit", .jint l)])
    ∧ (∀ u l, personalized_feed st tr u l
        = post st tr "/api/content/personalized_feed"
            [("user_id", .jstr u), ("limit", .jint l)]) := by
  refine ⟨rfl, ?_, ?_, fun _ => rfl, fun _ _ => rfl, fun _ _ => rfl,
    fun _ => rfl, fun _ => rfl, fun _ _ => rfl, fun _ _ => rfl, fun _ _ => rfl⟩
  · intro h
    simp only [post]
    rw [if_neg h]
  · intro j hs hj
    simp only [post]
    rw [if_pos hs, hj]

/-- C5 witness: a transport that always answers 500 with body `"boom"`
makes `block_tag` fail with `HTTPError 500 "boom"` after exactly one
request, and a transport answering 200 with a JSON body returns that
body unchanged. -/
theorem http_status_handling_witness :
    (block_tag ⟨"http://e", none⟩ (fun _ => ⟨500, "boom", none⟩) "sports").1.length = 1
    ∧ (block_tag ⟨"http://e", none⟩ (fun _ => ⟨500, "boom", none⟩) "sports").2
        = .error (.httpError 500 "boom")
    ∧ (block_tag ⟨"http://e", none⟩ (fun _ => ⟨200, "{}", some (.jobj [])⟩) "sports").2
        = .ok (.jobj []) := by
  have h1 := http_status_handling ⟨"http://e", none⟩
    (fun _ => ⟨500, "boom", none⟩) "/api/control/block_tag" [("tag", .jstr "sports")]
  have h2 := http_status_handling ⟨"http://e", none⟩
    (fun _ => ⟨200, "{}", some (.jobj [])⟩) "/api/control/block_tag" [("tag", .jstr "sports")]
  refine ⟨?_, ?_, ?_⟩
  · rw [h1.2.2.2.2.2.2.1 "sports"]
    exact h1.1
  · rw [h1.2.2.2.2.2.2.1 "sports"]
    exact h1.2.1 (by decide)
  · rw [h2.2.2.2.2.2.2.1 "sports"]
    exact h2.2.2.1 (.jobj []) (by decide) rfl

/-- A float outside the closed range `[0.0, 10.0]`: a finite value below
0 or above 10, or any non-finite value (`nan` and the infinities do not
lie in the range; pydantic's `ge`/`le` comparisons reject them too,
since `nan >= 0.0` is false in Python). -/
def outsideRange0to10 : PyFloat → Prop
  | .finite q => q < 0 ∨ 10 < q
  | _ => True

/-- A factor outside `[0, 10]` fails the `ge=0.0, le=10.0` check. -/
theorem factorInRange_eq_false (f : PyFloat) (h : outsideRange0to10 f) :
    factorInRange f = false := by
  cases f with
  | finite q =>
    rcases h with h | h
    · have hn : ¬ (0 ≤ q) := not_le.mpr h
      simp [factorInRange, PyFloat.le, hn]
    · have hn : ¬ (q ≤ 10) := not_le.mpr h
      simp [factorInRange, PyFloat.le, hn]
  | nan => rfl
  | inf => rfl
  | neginf => rfl

/-- C1: invoking `boost_creator_tool` or `demote_creator_tool` with any
factor outside `[0.0, 10.0]` fails with `ValidationError` and issues no
request through the HTTP adapter (the request trace is empty):
validation completes before any network side effect. -/
theorem invalid_factor_rejected_before_post (st : Settings)
    (tr : PostRequest → HttpResponse) (c : Option RawVal) (f : PyFloat)
    (h : outsideRange0to10 f) :
    run_boost_creator_tool st tr c (some (.rfloat f))
      = ([], .error .validationError)
    ∧ run_demote_creator_tool st tr c (some (.rfloat f))
      = ([], .error .validationError) := by
  have hf : factorInRange f = false := factorInRange_eq_false f h
  have hb : validateBoostCreator c (some (.rfloat f)) = none := by
    cases hc : c.bind coerceStr with
    | none => simp [validateBoostCreator, hc, coerceFloat]
    | some s => simp [validateBoostCreator, hc, coerceFloat, hf]
  have hd : validateDemoteCreator c (some (.rfloat f)) = none := by
    cases hc : c.bind coerceStr with
    | none => simp [validateDemoteCreator, hc, coerceFloat]
    | some s => simp [validateDemoteCreator, hc, coerceFloat, hf]
  constructor
  · simp [run_boost_creator_tool, hb]
  · simp [run_demote_creator_tool, hd]

/-- C1 witness: factor 11 lies outside the range and the boost tool
rejects it with no request issued. -/
theorem invalid_factor_rejected_before_post_witness :
    outsideRange0to10 (.finite 11)
    ∧ run_boost_creator_tool ⟨"http://e", none⟩
        (fun _ => ⟨200, "", some .jnull⟩)
        (some (.rstr "c1")) (some (.rfloat (.finite 11)))
      = ([], .error .validationError) :=
  ⟨Or.inr (by norm_num),
   (invalid_factor_rejected_before_post ⟨"http://e", none⟩
      (fun _ => ⟨200, "", some .jnull⟩) (some (.rstr "c1")) (.finite 11)
      (Or.inr (by norm_num))).1⟩

/-- C10: the bare capability functions perform no validation at all —
for every argument values (a factor outside `[0, 10]`, an empty
`creator_id` or `tag` included) they forward the arguments unchanged in
a single POST — while the range check lives only in the `args_schema`
bound to the `StructuredTool` wrapper, so a factor failing it is
rejected only when the call goes through the tool (last clause). -/
theorem capability_functions_no_validation (st : Settings)
    (tr : PostRequest → HttpResponse) :
    (∀ w, (set_recommendation_weights st tr w).1
      = [mkRequest st "/api/control/set_weights"
          [("weights", .jobj (w.map (fun kv => (kv.1, .jnum kv.2))))]])
    ∧ (∀ c f, (boost_creator st tr c f).1
      = [mkRequest st "/api/control/boost_creator"
          [("creator_id", .jstr c), ("factor", .jnum f)]])
    ∧ (∀ c f, (demote_creator st tr c f).1
      = [mkRequest st "/api/control/demote_creator"
          [("creator_id", .jstr c), ("factor", .jnum f)]])
    ∧ (∀ t, (block_tag st tr t).1
      = [mkRequest st "/api/control/block_tag" [("tag", .jstr t)]])
    ∧ (∀ t, (unblock_tag st tr t).1
      = [mkRequest st "/api/control/unblock_tag" [("tag", .jstr t)]])
    ∧ (∀ q l, (search_content st tr q l).1
      = [mkRequest st "/api/search/content"
          [("query", .jstr q), ("limit", .jint l)]])
    ∧ (∀ c l, (trending_content st tr c l).1
      = [mkRequest st "/api/content/trending"
          [("category", .jstr c), ("limit", .jint l)]])
    ∧ (∀ u l, (personalized_feed st tr u l).1
      = [mkRequest st "/api/content/personalized_feed"
          [("user_id", .jstr u), ("limit", .jint l)]])
    ∧ (∀ c f, factorInRange f = false →
        (boost_creator st tr c f).1.length = 1
        ∧ run_boost_creator_tool st tr (some (.rstr c)) (some (.rfloat f))
            = ([], .error .validationError)) := by
  refine ⟨fun _ => rfl, fun _ _ => rfl, fun _ _ => rfl, fun _ => rfl,
    fun _ => rfl, fun _ _ => rfl, fun _ _ => rfl, fun _ _ => rfl, ?_⟩
  intro c f hf
  refine ⟨rfl, ?_⟩
  simp [run_boost_creator_tool, validateBoostCreator, coerceStr, coerceFloat, hf]

/-- C10 witness: with factor 42 and an empty `creator_id`, the bare
function still issues its POST (arguments forwarded unchanged) while the
tool wrapper rejects the same arguments. -/
theorem capability_functions_no_validation_witness :
    factorInRange (.finite 42) = false
    ∧ (boost_creator ⟨"http://e", none⟩ (fun _ => ⟨200, "", some .jnull⟩)
        "" (.finite 42)).1.length = 1
    ∧ run_boost_creator_tool ⟨"http://e", none⟩
        (fun _ => ⟨200, "", some .jnull⟩)
        (some (.rstr "")) (some (.rfloat (.finite 42)))
      = ([], .error .validationError) := by
  have h := (capability_functions_no_validation ⟨"http://e", none⟩
    (fun _ => ⟨200, "", some .jnull⟩)).2.2.2.2.2.2.2.2 "" (.finite 42) (by decide)
  exact ⟨by decide, h.1, h.2⟩

/-- If any raw value fails float coercion, the whole weights dict fails. -/
theorem coerceWeights_none {entries : List (String × RawVal)}
    (h : ∃ kv ∈ entries, coerceFloat kv.2 = none) :
    coerceWeights entries = none := by
  induction entries with
  | nil => simp at h
  | cons kv rest ih =>
    obtain ⟨k, v⟩ := kv
    rcases h with ⟨kv', hmem, hco⟩
    rcases List.mem_cons.mp hmem with he | hm
    · subst he
      simp only [coerceWeights, hco]
    · have hr := ih ⟨kv', hm, hco⟩
      cases hv : coerceFloat v <;> simp only [coerceWeights, hv, hr]

/-- Successful weights coercion keeps the keys, in order, unchanged. -/
theorem coerceWeights_keys :
    ∀ entries ws, coerceWeights entries = some ws →
      ws.map Prod.fst = entries.map Prod.fst := by
  intro entries
  induction entries with
  | nil =>
    intro ws h
    simp only [coerceWeights, Option.some.injEq] at h
    subst h
    rfl
  | cons kv rest ih =>
    obtain ⟨k, v⟩ := kv
    intro ws h
    cases hv : coerceFloat v with
    | none => rw [coerceWeights, hv] at h; exact absurd h (by simp)
    | some f =>
      cases hr : coerceWeights rest with
      | none => rw [coerceWeights, hv, hr] at h; exact absurd h (by simp)
      | some ws' =>
        rw [coerceWeights, hv, hr] at h
        simp only [Option.some.injEq] at h
        subst h
        simp [ih ws' hr]

/-- A dict whose values are already floats coerces to itself. -/
theorem coerceWeights_roundtrip (ws : List (String × PyFloat)) :
    coerceWeights (ws.map (fun kv => (kv.1, .rfloat kv.2))) = some ws := by
  induction ws with
  | nil => rfl
  | cons kv rest ih =>
    obtain ⟨k, f⟩ := kv
    simp [coerceWeights, coerceFloat, ih]

/-- C6 counterexample: the weights dict `{"": nan}` is accepted by
`SetWeightsInput` validation although its key is the empty string and
its value is not finite — refuting the claimed invariant that accepted
mappings have non-empty keys and finite values. -/
theorem setweights_invariant_counterexample :
    validateSetWeights (some (.rdict [("", .rfloat .nan)]))
      = some ⟨[("", .nan)]⟩
    ∧ ("" : String).data.isEmpty = true
    ∧ PyFloat.isFinite .nan = false :=
  ⟨rfl, rfl, rfl⟩

/-- C6 (amended): `SetWeightsInput` fails with `ValidationError` when
any value is non-numeric, and an accepted mapping keeps its keys (in
order) unchanged; but the code enforces no further invariant — keys may
be empty and values may be any float, including `nan` and the
infinities, as the third clause shows for arbitrary float dicts. -/
theorem setweights_validation (entries : List (String × RawVal)) :
    ((∃ kv ∈ entries, coerceFloat kv.2 = none) →
        validateSetWeights (some (.rdict entries)) = none)
    ∧ (∀ m, validateSetWeights (some (.rdict entries)) = some m →
        m.weights.map Prod.fst = entries.map Prod.fst)
    ∧ (∀ ws : List (String × PyFloat),
        validateSetWeights
          (some (.rdict (ws.map (fun kv => (kv.1, .rfloat kv.2)))))
          = some ⟨ws⟩) := by
  refine ⟨?_, ?_, ?_⟩
  · intro h
    simp [validateSetWeights, coerceWeights_none h]
  · intro m hm
    simp only [validateSetWeights] at hm
    cases hw : coerceWeights entries with
    | none => rw [hw] at hm; exact absurd hm (by simp)
    | some ws =>
      rw [hw] at hm
      simp only [Option.map_some', Option.some.injEq] at hm
      subst hm
      exact coerceWeights_keys entries ws hw
  · intro ws
    simp [validateSetWeights, coerceWeights_roundtrip]

/-- C6 witness: a dict with a `None` value is rejected, and a dict with
a single float value keeps its key. -/
theorem setweights_validation_witness :
    validateSetWeights (some (.rdict [("a", .rnone)])) = none
    ∧ (SetWeightsInput.mk [("x", .finite 1)]).weights.map Prod.fst
        = ([("x", RawVal.rfloat (.finite 1))]).map Prod.fst :=
  ⟨(setweights_validation [("a", .rnone)]).1 ⟨("a", .rnone), by simp, rfl⟩,
   (setweights_validation [("x", .rfloat (.finite 1))]).2.1
     ⟨[("x", .finite 1)]⟩ rfl⟩

/-- C7 counterexample: `limit = 0` is below 1 yet passes
`SearchContentInput` validation — the schemas declare no `ge=1`
constraint, so values below 1 are not rejected. -/
theorem limit_lower_bound_counterexample :
    validateSearchContent (some (.rstr "cats")) (some (.rint 0))
      = some ⟨"cats", 0⟩
    ∧ (0 : ℤ) < 1 :=
  ⟨rfl, by decide⟩

/-- C7 (amended): for `SearchContent`, `TrendingContent` and
`PersonalizedFeed` the `limit` argument is an integer that defaults to
10 when omitted, and `TrendingContent`'s `category` defaults to `"all"`
when omitted; no lower bound is enforced — every integer `limit`,
including 0 and negative values, passes validation. -/
theorem limit_defaults (q u c : String) (n : ℤ) :
    validateSearchContent (some (.rstr q)) none = some ⟨q, 10⟩
    ∧ validatePersonalizedFeed (some (.rstr u)) none = some ⟨u, 10⟩
    ∧ validateTrendingContent none none = some ⟨"all", 10⟩
    ∧ validateTrendingContent (some (.rstr c)) none = some ⟨c, 10⟩
    ∧ validateSearchContent (some (.rstr q)) (some (.rint n)) = some ⟨q, n⟩
    ∧ validateTrendingContent (some (.rstr c)) (some (.rint n)) = some ⟨c, n⟩
    ∧ validatePersonalizedFeed (some (.rstr u)) (some (.rint n)) = some ⟨u, n⟩ :=
  ⟨rfl, rfl, rfl, rfl, rfl, rfl, rfl⟩

/-- C8 counterexample: the empty tag passes `BlockTagInput` validation
and the tool call issues a network request — the schemas declare plain
`str` fields with no non-empty constraint. -/
theorem empty_string_accepted_counterexample :
    validateBlockTag (some (.rstr "")) = some ⟨""⟩
    ∧ (run_block_tag_tool ⟨"http://e", none⟩
        (fun _ => ⟨200, "", some .jnull⟩) (some (.rstr ""))).1.length = 1 :=
  ⟨rfl, rfl⟩

/-- C8 (amended): `creator_id` (for both `BoostCreator` and
`DemoteCreator`), `tag`, `query` and `user_id` are required fields —
omitting them fails validation with no network call — but they are
plain `str` fields: the empty string passes validation and the network
call proceeds (last clause: the empty-tag tool call issues its POST). -/
theorem string_fields_required_but_empty_ok (st : Settings)
    (tr : PostRequest → HttpResponse) :
    run_block_tag_tool st tr none = ([], .error .validationError)
    ∧ run_unblock_tag_tool st tr none = ([], .error .validationError)
    ∧ (∀ fRaw, run_boost_creator_tool st tr none fRaw
        = ([], .error .validationError))
    ∧ (∀ fRaw, run_demote_creator_tool st tr none fRaw
        = ([], .error .validationError))
    ∧ (∀ lRaw, run_search_content_tool st tr none lRaw
        = ([], .error .validationError))
    ∧ (∀ lRaw, run_personalized_feed_tool st tr none lRaw
        = ([], .error .validationError))
    ∧ (∀ s, validateBlockTag (some (.rstr s)) = some ⟨s⟩)
    ∧ (∀ s, validateUnblockTag (some (.rstr s)) = some ⟨s⟩)
    ∧ (∀ s n, validateSearchContent (some (.rstr s)) (some (.rint n))
        = some ⟨s, n⟩)
    ∧ (∀ s n, validatePersonalizedFeed (some (.rstr s)) (some (.rint n))
        = some ⟨s, n⟩)
    ∧ (∀ s f, factorInRange f = true →
        validateBoostCreator (some (.rstr s)) (some (.rfloat f)) = some ⟨s, f⟩)
    ∧ (∀ s f, factorInRange f = true →
        validateDemoteCreator (some (.rstr s)) (some (.rfloat f)) = some ⟨s, f⟩)
    ∧ (run_block_tag_tool st tr (some (.rstr ""))).1
        = [mkRequest st "/api/control/block_tag" [("tag", .jstr "")]] := by
  refine ⟨rfl, rfl, ?_, ?_, ?_, ?_, fun _ => rfl, fun _ => rfl,
    fun _ _ => rfl, fun _ _ => rfl, ?_, ?_, rfl⟩
  · intro fRaw
    cases hf : fRaw.bind coerceFloat <;>
      simp [run_boost_creator_tool, validateBoostCreator, hf]
  · intro fRaw
    cases hf : fRaw.bind coerceFloat <;>
      simp [run_demote_creator_tool, validateDemoteCreator, hf]
  · intro lRaw
    cases hl : withDefaultInt lRaw 10 <;>
      simp [run_search_content_tool, validateSearchContent, hl]
  · intro lRaw
    cases hl : withDefaultInt lRaw 10 <;>
      simp [run_personalized_feed_tool, validatePersonalizedFeed, hl]
  · intro s f hf
    simp [validateBoostCreator, coerceStr, coerceFloat, hf]
  · intro s f hf
    simp [validateDemoteCreator, coerceStr, coerceFloat, hf]

/-- C8 witness: a factor of 1 is in range, and the empty `creator_id`
together with it passes both `BoostCreatorInput` and
`DemoteCreatorInput` validation. -/
theorem string_fields_required_but_empty_ok_witness :
    factorInRange (.finite 1) = true
    ∧ validateBoostCreator (some (.rstr "")) (some (.rfloat (.finite 1)))
        = some ⟨"", .finite 1⟩
    ∧ validateDemoteCreator (some (.rstr "")) (some (.rfloat (.finite 1)))
        = some ⟨"", .finite 1⟩ :=
  ⟨by decide,
   (string_fields_required_but_empty_ok ⟨"http://e", none⟩
      (fun _ => ⟨200, "", some .jnull⟩)).2.2.2.2.2.2.2.2.2.2.1
      "" (.finite 1) (by decide),
   (string_fields_required_but_empty_ok ⟨"http://e", none⟩
      (fun _ => ⟨200, "", some .jnull⟩)).2.2.2.2.2.2.2.2.2.2.2.1
      "" (.finite 1) (by decide)⟩

/-- C9: validation is idempotent — re-validating the field values of an
already-valid instance of any of the eight request models yields exactly
that instance, with no field changed (for the factor-constrained models
the hypothesis states that the instance is valid). -/
theorem validation_idempotent :
    (∀ m : SetWeightsInput,
      validateSetWeights
        (some (.rdict (m.weights.map (fun kv => (kv.1, .rfloat kv.2)))))
        = some m)
    ∧ (∀ m : BoostCreatorInput, factorInRange m.factor = true →
      validateBoostCreator (some (.rstr m.creator_id))
        (some (.rfloat m.factor)) = some m)
    ∧ (∀ m : DemoteCreatorInput, factorInRange m.factor = true →
      validateDemoteCreator (some (.rstr m.creator_id))
        (some (.rfloat m.factor)) = some m)
    ∧ (∀ m : BlockTagInput, validateBlockTag (some (.rstr m.tag)) = some m)
    ∧ (∀ m : UnblockTagInput,
      validateUnblockTag (some (.rstr m.tag)) = some m)
    ∧ (∀ m : SearchContentInput,
      validateSearchContent (some (.rstr m.query)) (some (.rint m.limit))
        = some m)
    ∧ (∀ m : TrendingContentInput,
      validateTrendingContent (some (.rstr m.category)) (some (.rint m.limit))
        = some m)
    ∧ (∀ m : PersonalizedFeedInput,
      validatePersonalizedFeed (some (.rstr m.user_id)) (some (.rint m.limit))
        = some m) := by
  refine ⟨?_, ?_, ?_, fun _ => rfl, fun _ => rfl, fun _ => rfl,
    fun _ => rfl, fun _ => rfl⟩
  · intro m
    simp [validateSetWeights, coerceWeights_roundtrip]
  · intro m hm
    simp [validateBoostCreator, coerceStr, coerceFloat, hm]
  · intro m hm
    simp [validateDemoteCreator, coerceStr, coerceFloat, hm]

/-- C9 witness: re-validating the valid instance
`⟨"c1", 1.0⟩ : BoostCreatorInput` returns it unchanged. -/
theorem validation_idempotent_witness :
    factorInRange (.finite 1) = true
    ∧ validateBoostCreator (some (.rstr "c1")) (some (.rfloat (.finite 1)))
        = some ⟨"c1", .finite 1⟩ :=
  ⟨by decide, validation_idempotent.2.1 ⟨"c1", .finite 1⟩ (by decide)⟩
